import Mathlib

set_option maxRecDepth 100000

/-!
Verification development for the Canvas kiosk "smart display" shell
(an Electron application: a main process exposing a JSON settings store
and a flash-update directory watcher over IPC, and a renderer process
implementing the clock, countdown timer, night-shift overlay and
settings mutation).

The definitions below are shallow embeddings of the JavaScript source:

* the persisted configuration store and its IPC handlers
  (main.js: handlers for get-config and save-config; the renderer side
  CanvasSystem.loadConfig / getDefaultConfig of the v1.4.1 core),
* the dotted-path settings mutation over a JSON-like document tree
  (CanvasSystem.updateSetting of the v1.4.0 core),
* the night-shift window arithmetic (CanvasSystem.checkNightShift and
  CanvasSystem.timeToMinutes),
* the countdown timer state machine (CanvasSystem.addTimerTime,
  toggleTimer, startTimer, pauseTimer, clearTimer and the interval
  tick callback; renderer.js carries the same logic),
* one pass of the flash-directory polling loop (main.js createWindow).

JavaScript numbers appearing in these code paths are modelled as exact
rationals, with NaN modelled explicitly as the missing case of an
Option, since the clock arithmetic only adds, multiplies and compares.
I/O failure (a write error, a missing or unparsable file) is modelled
by explicit store states and an injected success flag, mirroring the
try/catch structure of the handlers.
-/

/-! ### The persisted configuration store

The settings document lives in one JSON file.  From the point of view
of the IPC handlers a file is either absent, present and parsable to a
document, or present but unparsable (JSON.parse throws).  The document
type is a parameter: the typed model below instantiates it with a
record of optional fields, the dotted-path model with a JSON tree. -/

/-- State of the persisted settings file: parses to a document `doc`,
or is present but corrupt (JSON.parse would throw). -/
inductive PFile (α : Type) where
  | valid (doc : α)
  | corrupt
deriving DecidableEq

/-- The persisted store: `none` when the file is absent. -/
def Store (α : Type) : Type := Option (PFile α)

/-- Model of the main.js get-config IPC handler: if the file exists,
read and parse it inside try/catch and return the document; on a parse
error the catch branch logs and falls through; in every non-valid case
the handler returns null (modelled as `none`).  The handler never
propagates an exception to the renderer. -/
def getConfig {α : Type} (s : Store α) : Option α :=
  match s with
  | some (PFile.valid d) => some d
  | some PFile.corrupt => none
  | none => none

/-- Model of the main.js save-config IPC handler: try to serialize and
write the whole document, returning true; the catch branch logs the
write error and returns false, leaving the persisted file as it was.
`writeOk` injects whether the underlying write succeeds. -/
def saveConfig {α : Type} (writeOk : Bool) (cfg : α) (s : Store α) :
    Bool × Store α :=
  if writeOk then (true, some (PFile.valid cfg)) else (false, s)

/-- Model of CanvasSystem.loadConfig (v1.4.1 core): ask the main
process for the document; when the answer is null (file absent, or
parse failed in the handler) substitute the built-in defaults and
immediately persist them; otherwise keep the loaded document as is.
Returns the in-memory document together with the resulting store. -/
def loadConfig {α : Type} (defaults : α) (s : Store α) : α × Store α :=
  match getConfig s with
  | none => (defaults, (saveConfig true defaults s).2)
  | some d => (d, s)

/-- load() followed by save() followed by a fresh load(), the
round-trip of the spec: the first load fills and persists defaults
only when the store held no parsable document, the save rewrites the
whole in-memory document, the final load reads it back. -/
def loadSaveLoad {α : Type} (defaults : α) (s : Store α) : α :=
  let first := loadConfig defaults s
  let saved := saveConfig true first.1 first.2
  (loadConfig defaults saved.2).1

/-! ### The typed configuration document

The full document shape written by getDefaultConfig (v1.4.1 core and
main.js ensureSystemDirectories agree on it).  A loaded document may
be missing any subset of fields at any depth, so alongside each record
there is a record of optional fields (`...Opt`) standing for a parsed
JSON object in which some keys are absent. -/

/-- display.nightShift subdocument. -/
structure NightShiftConfig where
  enabled : Bool
  startTime : String
  endTime : String
  warmth : ℚ
deriving DecidableEq

/-- display subdocument. -/
structure DisplayConfig where
  brightness : ℤ
  dimAfter : ℤ
  nightShift : NightShiftConfig
deriving DecidableEq

/-- time subdocument. -/
structure TimeConfig where
  format : String
  timezone : String
deriving DecidableEq

/-- animations subdocument. -/
structure AnimationsConfig where
  intensity : String
  springPhysics : Bool
  durationMultiplier : ℚ
deriving DecidableEq

/-- features subdocument. -/
structure FeaturesConfig where
  hapticFeedback : Bool
  devTools : Bool
  performanceMonitor : Bool
deriving DecidableEq

/-- The fully populated configuration document. -/
structure Config where
  version : String
  display : DisplayConfig
  time : TimeConfig
  animations : AnimationsConfig
  features : FeaturesConfig
deriving DecidableEq

/-- CanvasSystem.getDefaultConfig of the v1.4.1 core (the same values
main.js writes on first run): brightness 100, dimAfter 120 seconds,
night shift disabled over 22:00 to 07:00 at warmth 0.5, 12h clock,
medium animation intensity, spring physics on, haptics on.  The
timezone is taken from the environment, so it is a parameter. -/
def getDefaultConfig (tz : String) : Config :=
  { version := "1.4.1"
    display :=
      { brightness := 100
        dimAfter := 120
        nightShift :=
          { enabled := false
            startTime := "22:00"
            endTime := "07:00"
            warmth := 1/2 } }
    time := { format := "12h", timezone := tz }
    animations :=
      { intensity := "medium"
        springPhysics := true
        durationMultiplier := 1 }
    features :=
      { hapticFeedback := true
        devTools := false
        performanceMonitor := false } }

/-- display.nightShift with any subset of keys absent. -/
structure NightShiftOpt where
  enabled : Option Bool
  startTime : Option String
  endTime : Option String
  warmth : Option ℚ
deriving DecidableEq

/-- display with any subset of keys absent. -/
structure DisplayOpt where
  brightness : Option ℤ
  dimAfter : Option ℤ
  nightShift : Option NightShiftOpt
deriving DecidableEq

/-- time with any subset of keys absent. -/
structure TimeOpt where
  format : Option String
  timezone : Option String
deriving DecidableEq

/-- animations with any subset of keys absent. -/
structure AnimationsOpt where
  intensity : Option String
  springPhysics : Option Bool
  durationMultiplier : Option ℚ
deriving DecidableEq

/-- features with any subset of keys absent. -/
structure FeaturesOpt where
  hapticFeedback : Option Bool
  devTools : Option Bool
  performanceMonitor : Option Bool
deriving DecidableEq

/-- A parsed configuration document with any subset of fields absent
at any nesting depth. -/
structure ConfigOpt where
  version : Option String
  display : Option DisplayOpt
  time : Option TimeOpt
  animations : Option AnimationsOpt
  features : Option FeaturesOpt
deriving DecidableEq

/-- View of a fully populated night-shift subdocument as a parsed
object with every key present. -/
def NightShiftConfig.toOpt (c : NightShiftConfig) : NightShiftOpt :=
  ⟨some c.enabled, some c.startTime, some c.endTime, some c.warmth⟩

/-- View of a fully populated display subdocument as a parsed object
with every key present. -/
def DisplayConfig.toOpt (c : DisplayConfig) : DisplayOpt :=
  ⟨some c.brightness, some c.dimAfter, some c.nightShift.toOpt⟩

/-- View of a fully populated time subdocument as a parsed object with
every key present. -/
def TimeConfig.toOpt (c : TimeConfig) : TimeOpt :=
  ⟨some c.format, some c.timezone⟩

/-- View of a fully populated animations subdocument as a parsed
object with every key present. -/
def AnimationsConfig.toOpt (c : AnimationsConfig) : AnimationsOpt :=
  ⟨some c.intensity, some c.springPhysics, some c.durationMultiplier⟩

/-- View of a fully populated features subdocument as a parsed object
with every key present. -/
def FeaturesConfig.toOpt (c : FeaturesConfig) : FeaturesOpt :=
  ⟨some c.hapticFeedback, some c.devTools, some c.performanceMonitor⟩

/-- View of a fully populated configuration document as a parsed
object with every key present. -/
def Config.toOpt (c : Config) : ConfigOpt :=
  ⟨some c.version, some c.display.toOpt, some c.time.toOpt,
    some c.animations.toOpt, some c.features.toOpt⟩

/-- Modelled from the spec (section 4.1, default-filling policy): fill
every absent field of a loaded document from the built-in defaults,
recursively per nested object.  No such merge exists in the source;
this definition is the spec side of the refinement claim about the
load round-trip. -/
def mergeNightShift (d : NightShiftConfig) (p : NightShiftOpt) :
    NightShiftConfig :=
  { enabled := p.enabled.getD d.enabled
    startTime := p.startTime.getD d.startTime
    endTime := p.endTime.getD d.endTime
    warmth := p.warmth.getD d.warmth }

/-- Modelled from the spec: recursive default filling for the display
subdocument. -/
def mergeDisplay (d : DisplayConfig) (p : DisplayOpt) : DisplayConfig :=
  { brightness := p.brightness.getD d.brightness
    dimAfter := p.dimAfter.getD d.dimAfter
    nightShift :=
      match p.nightShift with
      | some ns => mergeNightShift d.nightShift ns
      | none => d.nightShift }

/-- Modelled from the spec: recursive default filling for the time
subdocument. -/
def mergeTime (d : TimeConfig) (p : TimeOpt) : TimeConfig :=
  { format := p.format.getD d.format
    timezone := p.timezone.getD d.timezone }

/-- Modelled from the spec: recursive default filling for the
animations subdocument. -/
def mergeAnimations (d : AnimationsConfig) (p : AnimationsOpt) :
    AnimationsConfig :=
  { intensity := p.intensity.getD d.intensity
    springPhysics := p.springPhysics.getD d.springPhysics
    durationMultiplier := p.durationMultiplier.getD d.durationMultiplier }

/-- Modelled from the spec: recursive default filling for the features
subdocument. -/
def mergeFeatures (d : FeaturesConfig) (p : FeaturesOpt) : FeaturesConfig :=
  { hapticFeedback := p.hapticFeedback.getD d.hapticFeedback
    devTools := p.devTools.getD d.devTools
    performanceMonitor := p.performanceMonitor.getD d.performanceMonitor }

/-- Modelled from the spec: the built-in defaults merged, recursively
per nested object, with the fields present in a loaded document. -/
def mergeDefaults (d : Config) (p : ConfigOpt) : Config :=
  { version := p.version.getD d.version
    display :=
      match p.display with
      | some x => mergeDisplay d.display x
      | none => d.display
    time :=
      match p.time with
      | some x => mergeTime d.time x
      | none => d.time
    animations :=
      match p.animations with
      | some x => mergeAnimations d.animations x
      | none => d.animations
    features :=
      match p.features with
      | some x => mergeFeatures d.features x
      | none => d.features }

/-- The parsed empty JSON object: a present, parsable document with
every field absent. -/
def emptyConfigOpt : ConfigOpt := ⟨none, none, none, none, none⟩

/-! ### The dotted-path settings mutation

CanvasSystem.updateSetting of the v1.4.0 core mutates the in-memory
configuration through a dotted path ("display.dimAfter"), creating
empty objects along the way where a segment is missing or falsy, then
persists the whole document.  That traversal is untyped, so it is
embedded over a JSON-like document tree. -/

/-- A JSON value as the settings code manipulates it. -/
inductive Json where
  | null
  | bool (b : Bool)
  | num (q : ℚ)
  | str (s : String)
  | obj (fields : List (String × Json))

/-- Key lookup in a JSON object field list (first match wins, as in a
parsed JSON object, whose keys are unique). -/
def jsonLookup (fields : List (String × Json)) (k : String) : Option Json :=
  match fields with
  | [] => none
  | (k2, v) :: rest => if k2 = k then some v else jsonLookup rest k

/-- JavaScript truthiness of a value read off the document tree
(null, false, 0 and the empty string are falsy; a missing key reads
as undefined, which the caller treats as falsy via `Option`). -/
def jsonTruthy (j : Json) : Bool :=
  match j with
  | Json.null => false
  | Json.bool b => b
  | Json.num q => !(q = 0)
  | Json.str s => !(s = "")
  | Json.obj _ => true

/-- Property assignment on a JSON object field list: overwrite the
existing key in place, or append the new key, as JS object assignment
does. -/
def jsonSetField (fields : List (String × Json)) (k : String) (v : Json) :
    List (String × Json) :=
  match fields with
  | [] => [(k, v)]
  | (k2, w) :: rest =>
      if k2 = k then (k, v) :: rest
      else (k2, w) :: jsonSetField rest k v

/-- The traversal inside CanvasSystem.updateSetting (v1.4.0): walk the
key list, replacing a missing or falsy segment by an empty object and
descending, then assign the value at the last key.  Property
assignment on a non-object leaf has no effect on the tree it returns
(the source never reaches that case: the path segments used by the
settings UI always name objects). -/
def setPath : List String → Json → Json → Json
  | [], _, j => j
  | [k], v, j =>
      match j with
      | Json.obj fs => Json.obj (jsonSetField fs k v)
      | _ => j
  | k :: k2 :: rest, v, j =>
      match j with
      | Json.obj fs =>
          let child :=
            match jsonLookup fs k with
            | some c => if jsonTruthy c then c else Json.obj []
            | none => Json.obj []
          Json.obj (jsonSetField fs k (setPath (k2 :: rest) v child))
      | _ => j

/-- Read a dotted path off a document tree (used to observe the stored
value after a reload). -/
def getPath : List String → Json → Option Json
  | [], j => some j
  | k :: rest, Json.obj fs =>
      match jsonLookup fs k with
      | some c => getPath rest c
      | none => none
  | _ :: _, _ => none

/-- JavaScript String.prototype.split with a one-character separator,
as used on the dotted setting path and on the HH:MM clock strings. -/
def jsSplit (s : String) (c : Char) : List String :=
  (s.data.splitOn c).map String.mk

/-- CanvasSystem.updateSetting (v1.4.0, dotted-path variant), the
document part: split the path on dots, walk and assign, then persist
the whole document through the save-config handler.  Returns the new
in-memory document and the new store. -/
def updateSetting (cfg : Json) (path : String) (v : Json)
    (s : Store Json) : Json × Store Json :=
  let cfg2 := setPath (jsSplit path '.') v cfg
  (cfg2, (saveConfig true cfg2 s).2)

/-- CanvasSystem.getDefaultConfig of the v1.4.0 core as a document
tree (it adds features.debugMode to the common shape).  The timezone
comes from the environment, so it is a parameter. -/
def defaultConfigJson (tz : String) : Json :=
  Json.obj
    [("version", Json.str "1.4.0"),
     ("display", Json.obj
        [("brightness", Json.num 100),
         ("dimAfter", Json.num 120),
         ("nightShift", Json.obj
            [("enabled", Json.bool false),
             ("startTime", Json.str "22:00"),
             ("endTime", Json.str "07:00"),
             ("warmth", Json.num (1/2))])]),
     ("time", Json.obj
        [("format", Json.str "12h"),
         ("timezone", Json.str tz)]),
     ("animations", Json.obj
        [("intensity", Json.str "medium"),
         ("springPhysics", Json.bool true),
         ("durationMultiplier", Json.num 1)]),
     ("features", Json.obj
        [("hapticFeedback", Json.bool true),
         ("devTools", Json.bool false),
         ("performanceMonitor", Json.bool false),
         ("debugMode", Json.bool false)])]

/-! ### Night-shift clock arithmetic

CanvasSystem.timeToMinutes converts an "HH:MM" string into minutes of
the day with plain JavaScript Number conversion; malformed input
produces NaN, and NaN poisons every comparison in checkNightShift.  A
possibly-NaN number is modelled as an Option over the rationals, with
`none` for NaN. -/

/-- Numeric value of a digit run (most significant first). -/
def digitsVal (l : List Char) : ℚ :=
  ((l.foldl (fun n c => 10 * n + (c.toNat - 48)) 0 : ℕ) : ℚ)

/-- Unsigned part of JavaScript Number conversion on a character list:
a decimal literal with an optional fraction part ("5", "5.", ".5",
"5.25"); anything else is NaN.  The hexadecimal, exponent and Infinity
forms of the JS numeric grammar never arise from clock strings and are
not modelled. -/
def jsNumUnsigned (l : List Char) : Option ℚ :=
  match l.splitOn '.' with
  | [ip] =>
      if ip.isEmpty || !(ip.all Char.isDigit) then none
      else some (digitsVal ip)
  | [ip, fp] =>
      if (ip.isEmpty && fp.isEmpty) || !(ip.all Char.isDigit)
          || !(fp.all Char.isDigit) then none
      else some (digitsVal ip + digitsVal fp / (10 : ℚ) ^ fp.length)
  | _ => none

/-- JavaScript Number conversion on a string: trim whitespace, the
empty string converts to 0, an optional sign precedes the unsigned
literal; `none` is NaN. -/
def jsNumber (s : String) : Option ℚ :=
  let t := ((s.data.dropWhile Char.isWhitespace).reverse.dropWhile
      Char.isWhitespace).reverse
  match t with
  | [] => some 0
  | '-' :: r => (jsNumUnsigned r).map (fun q => -q)
  | '+' :: r => jsNumUnsigned r
  | _ => jsNumUnsigned t

/-- Number(x) applied to an element that array destructuring may have
left undefined (Number(undefined) is NaN). -/
def jsNumberOfPart (p : Option String) : Option ℚ :=
  match p with
  | some s => jsNumber s
  | none => none

/-- CanvasSystem.timeToMinutes: split on the colon, convert the first
two parts with Number, return hours * 60 + minutes.  If either part is
missing or non-numeric the result is NaN (`none`): NaN propagates
through the arithmetic. -/
def timeToMinutes (timeStr : String) : Option ℚ :=
  let parts := jsSplit timeStr ':'
  match jsNumberOfPart (parts.get? 0), jsNumberOfPart (parts.get? 1) with
  | some h, some m => some (h * 60 + m)
  | _, _ => none

/-- JavaScript `<` on possibly-NaN numbers: false whenever either side
is NaN. -/
def jsLt (a b : Option ℚ) : Bool :=
  match a, b with
  | some x, some y => decide (x < y)
  | _, _ => false

/-- JavaScript `>` on possibly-NaN numbers: false whenever either side
is NaN. -/
def jsGt (a b : Option ℚ) : Bool :=
  match a, b with
  | some x, some y => decide (y < x)
  | _, _ => false

/-- JavaScript `>=` on possibly-NaN numbers: false whenever either
side is NaN. -/
def jsGe (a b : Option ℚ) : Bool :=
  match a, b with
  | some x, some y => decide (y ≤ x)
  | _, _ => false

/-- The isActive ternary inside CanvasSystem.checkNightShift, over
possibly-NaN start and end minutes (the current time, coming from the
Date object, is always an actual number):
startTime > endTime ? now >= start || now < end : now >= start && now < end. -/
def inWindowOpt (now : ℚ) (st en : Option ℚ) : Bool :=
  if jsGt st en then jsGe (some now) st || jsLt (some now) en
  else jsGe (some now) st && jsLt (some now) en

/-- The night-shift window predicate on actual minutes-of-day values:
the same ternary with both bounds real numbers. -/
def inWindow (now s e : ℚ) : Bool := inWindowOpt now (some s) (some e)

/-- CanvasSystem.checkNightShift (v1.4.1 core), as a function from the
nightShift subdocument (or its absence) and the current minutes of the
day to the opacity it writes on the warm overlay: 0 when the feature
is absent or disabled or the window is inactive, the configured warmth
when active. -/
def checkNightShift (cfg : Option NightShiftConfig) (currentTime : ℚ) : ℚ :=
  match cfg with
  | none => 0
  | some c =>
      if !c.enabled then 0
      else
        let startTime := timeToMinutes c.startTime
        let endTime := timeToMinutes c.endTime
        if inWindowOpt currentTime startTime endTime then c.warmth else 0

/-- Modelled from the spec (data model section: startTime and endTime
are "HH:MM" strings): a well-formed clock string is two digits, a
colon, two digits, naming a time of day.  The source has no such
check; this predicate only states which inputs the implicit claim
about malformed strings ranges over. -/
def isHHMM (s : String) : Bool :=
  match s.data with
  | [h1, h2, ':', m1, m2] =>
      h1.isDigit && h2.isDigit && m1.isDigit && m2.isDigit &&
      decide ((h1.toNat - 48) * 10 + (h2.toNat - 48) < 24) &&
      decide ((m1.toNat - 48) * 10 + (m2.toNat - 48) < 60)
  | _ => false

/-! ### The countdown timer

The v1.4.1 core holds timerSeconds, isTimerRunning and an interval
handle; renderer.js carries the same logic under the same names.  The
interval exists exactly while the timer is running (toggleTimer guards
both directions, pauseTimer clears it), so the once-per-second
interval callback is modelled as a tick operation that acts only on a
running state.  Seconds are modelled as integers, not naturals, so
non-negativity is a property to prove, not a typing artifact.  The
emission of the completion signal (playTimerComplete) is recorded in a
counter. -/

/-- Timer state: remaining seconds, the running flag, and the number
of completion signals emitted so far. -/
structure TimerState where
  timerSeconds : ℤ
  isTimerRunning : Bool
  completions : ℕ
deriving DecidableEq

/-- Timer state at shell start: zero seconds, not running, no
completion signal emitted. -/
def initTimerState : TimerState :=
  { timerSeconds := 0, isTimerRunning := false, completions := 0 }

/-- CanvasSystem.addTimerTime: add to the remaining seconds only when
the timer is not running; while running the call does nothing. -/
def addTimerTime (n : ℤ) (st : TimerState) : TimerState :=
  if st.isTimerRunning then st
  else { st with timerSeconds := st.timerSeconds + n }

/-- CanvasSystem.startTimer: mark running (and install the interval). -/
def startTimer (st : TimerState) : TimerState :=
  { st with isTimerRunning := true }

/-- CanvasSystem.pauseTimer: mark not running and clear the interval;
remaining seconds are preserved. -/
def pauseTimer (st : TimerState) : TimerState :=
  { st with isTimerRunning := false }

/-- CanvasSystem.clearTimer: pause, then reset remaining seconds to
zero. -/
def clearTimer (st : TimerState) : TimerState :=
  { pauseTimer st with timerSeconds := 0 }

/-- CanvasSystem.toggleTimer: ignore the press at zero seconds;
otherwise start when stopped and pause when running. -/
def toggleTimer (st : TimerState) : TimerState :=
  if st.timerSeconds = 0 then st
  else if !st.isTimerRunning then startTimer st
  else pauseTimer st

/-- One firing of the interval callback installed by startTimer: while
seconds remain, decrement; at zero, clearTimer then emit the
completion signal.  A stopped timer has no interval, so the tick
leaves it unchanged. -/
def timerTick (st : TimerState) : TimerState :=
  if st.isTimerRunning then
    if 0 < st.timerSeconds then
      { st with timerSeconds := st.timerSeconds - 1 }
    else
      { clearTimer st with completions := st.completions + 1 }
  else st

/-- The public timer operations reachable from the shell UI: the three
add buttons (60, 300 and 600 seconds), the start/stop toggle, pause,
clear, and the passage of one second. -/
inductive TimerOp where
  | add (n : ℕ)
  | toggle
  | pause
  | clear
  | tick
deriving DecidableEq

/-- Apply one public operation to the timer state. -/
def applyTimerOp (st : TimerState) (op : TimerOp) : TimerState :=
  match op with
  | TimerOp.add n => addTimerTime (n : ℤ) st
  | TimerOp.toggle => toggleTimer st
  | TimerOp.pause => pauseTimer st
  | TimerOp.clear => clearTimer st
  | TimerOp.tick => timerTick st

/-- Run a sequence of public operations from the shell-start state. -/
def runTimerOps (ops : List TimerOp) : TimerState :=
  ops.foldl applyTimerOp initTimerState

/-! ### The flash-update polling pass

main.js createWindow installs a 2-second poll over the flash
directory: read the directory listing, keep the names ending in
".js", and if any are found, send one flash-update notification
carrying the first such name, then move every found file into the
processed subdirectory. -/

/-- JavaScript String.prototype.endsWith, the filter the polling loop
applies to directory entries. -/
def jsEndsWith (s suffix : String) : Bool :=
  suffix.data.isSuffixOf s.data

/-- The qualifying files of one directory listing: the entries ending
in ".js". -/
def flashQualifying (files : List String) : List String :=
  files.filter (fun f => jsEndsWith f ".js")

/-- Outcome of one polling pass: the notifications sent to the
renderer, and the files moved into the processed subdirectory. -/
structure PollResult where
  notifications : List String
  moved : List String
deriving DecidableEq

/-- One pass of the polling loop in main.js: filter the listing to
".js" names; when at least one is found, send a single flash-update
message carrying the first one, and rename every found file into
flash/processed. -/
def pollFlashDir (files : List String) : PollResult :=
  match flashQualifying files with
  | [] => { notifications := [], moved := [] }
  | f :: fs => { notifications := [f], moved := f :: fs }

/-- The directory listing after one pass, with the moved files gone. -/
def afterPoll (files : List String) : List String :=
  files.filter (fun f => !((pollFlashDir files).moved.contains f))

/-- The renderer's save call as used by updateSetting and loadConfig:
invoke the save-config handler on the in-memory document (the document
crosses the IPC boundary by value); the call leaves the in-memory
document untouched and yields the handler's success flag together with
the resulting persisted store. -/
def shellSave {α : Type} (writeOk : Bool) (mem : α) (s : Store α) :
    α × Bool × Store α :=
  let r := saveConfig writeOk mem s
  (mem, r.1, r.2)

/-! ### Theorems -/

/-- C1, counterexample: the persisted empty JSON object (a present,
parsable document missing every field) survives load, save and reload
unchanged; the round-trip does not produce the defaults merged with
the (empty set of) present fields, because no per-field default
filling exists anywhere on the load path. -/
theorem c1_roundtrip_counterexample :
    loadSaveLoad ((getDefaultConfig "UTC").toOpt)
        (some (PFile.valid emptyConfigOpt)) ≠
      (mergeDefaults (getDefaultConfig "UTC") emptyConfigOpt).toOpt := by
  decide

/-- C1, amended: defaults are substituted (and persisted) only when
the store holds no parsable document at all; a present, parsable
document round-trips through load, save and reload unchanged, with
none of its absent fields filled. -/
theorem c1_roundtrip_amended :
    ∀ (tz : String) (p : ConfigOpt),
      loadSaveLoad ((getDefaultConfig tz).toOpt) (some (PFile.valid p)) = p ∧
      loadSaveLoad ((getDefaultConfig tz).toOpt) none =
        (getDefaultConfig tz).toOpt ∧
      loadSaveLoad ((getDefaultConfig tz).toOpt) (some PFile.corrupt) =
        (getDefaultConfig tz).toOpt := by
  intro tz p
  exact ⟨rfl, rfl, rfl⟩

/-- C2, counterexample: from the cleared state, after addTime(60),
start, and exactly 60 ticks the timer is still running and no
completion signal has been emitted; it is not in the claimed
not-running state with one completion. -/
theorem c2_sixty_ticks_counterexample :
    ¬ (TimerState.isTimerRunning
          (timerTick^[60] (toggleTimer (addTimerTime 60 initTimerState))) =
            false ∧
       TimerState.completions
          (timerTick^[60] (toggleTimer (addTimerTime 60 initTimerState))) =
            1) := by
  decide

/-- C2, amended: after addTime(60) and start, 60 ticks bring the
remaining time to zero with the timer still running and no signal
emitted; the 61st tick performs the automatic clear and emits the
completion signal, exactly once, and the state stays cleared from
then on (shown through tick 120). -/
theorem c2_completion_on_tick_after_zero :
    timerTick^[60] (toggleTimer (addTimerTime 60 initTimerState)) =
      { timerSeconds := 0, isTimerRunning := true, completions := 0 } ∧
    timerTick^[61] (toggleTimer (addTimerTime 60 initTimerState)) =
      { timerSeconds := 0, isTimerRunning := false, completions := 1 } ∧
    timerTick^[120] (toggleTimer (addTimerTime 60 initTimerState)) =
      { timerSeconds := 0, isTimerRunning := false, completions := 1 } := by
  decide

/-- C4: over the three possible states of the persisted file, load
never fails: an absent file and an unparsable file both yield the
built-in defaults and immediately persist them, and a parsable file
yields its document with the store untouched.  The model is total:
the get-config handler catches the read and parse errors and answers
null, and loadConfig substitutes the defaults on null, so no error
reaches the shell. -/
theorem c4_load_fails_soft :
    ∀ (tz : String) (p : ConfigOpt),
      loadConfig ((getDefaultConfig tz).toOpt) none =
        ((getDefaultConfig tz).toOpt,
          some (PFile.valid ((getDefaultConfig tz).toOpt))) ∧
      loadConfig ((getDefaultConfig tz).toOpt) (some PFile.corrupt) =
        ((getDefaultConfig tz).toOpt,
          some (PFile.valid ((getDefaultConfig tz).toOpt))) ∧
      loadConfig ((getDefaultConfig tz).toOpt) (some (PFile.valid p)) =
        (p, some (PFile.valid p)) := by
  intro tz p
  exact ⟨rfl, rfl, rfl⟩

/-- C6: on any running state addTimerTime is the identity on the whole
timer state, for every argument; on any stopped state it adds its
argument to the remaining seconds while staying stopped, and every
positive argument strictly increases the remaining time. -/
theorem c6_addTime_running_is_noop :
    ∀ (st : TimerState) (n : ℤ) (m : ℕ),
      addTimerTime n { st with isTimerRunning := true } =
        { st with isTimerRunning := true } ∧
      (addTimerTime n { st with isTimerRunning := false }).timerSeconds =
        st.timerSeconds + n ∧
      (addTimerTime n { st with isTimerRunning := false }).isTimerRunning =
        false ∧
      st.timerSeconds <
        (addTimerTime ((m : ℤ) + 1)
          { st with isTimerRunning := false }).timerSeconds := by
  intro st n m
  refine ⟨rfl, rfl, rfl, ?_⟩
  show st.timerSeconds < st.timerSeconds + ((m : ℤ) + 1)
  omega

/-- C8: when the underlying write fails, the save-config handler
reports false to the caller instead of raising (its catch branch) and
the persisted store is untouched; and the renderer's save call leaves
the in-memory document unchanged either way, so the session keeps
running on the in-memory copy.  A successful save reports true and
rewrites the persisted document. -/
theorem c8_save_failure_degrades :
    ∀ (cfg : ConfigOpt) (s : Store ConfigOpt),
      shellSave false cfg s = (cfg, false, s) ∧
      shellSave true cfg s = (cfg, true, some (PFile.valid cfg)) ∧
      saveConfig false cfg s = (false, s) := by
  intro cfg s
  exact ⟨rfl, rfl, rfl⟩

/-- Helper: value of timeToMinutes on a string that splits into two
numeric parts. -/
theorem timeToMinutes_eval (s h m : String) (a b : ℚ)
    (hs : jsSplit s ':' = [h, m]) (hh : jsNumber h = some a)
    (hm : jsNumber m = some b) :
    timeToMinutes s = some (a * 60 + b) := by
  unfold timeToMinutes jsNumberOfPart
  rw [hs]
  simp [hh, hm]

/-- Helper: the minutes-of-day value of the 22:00 night-shift start. -/
theorem timeToMinutes_2200 : timeToMinutes "22:00" = some 1320 := by
  have h := timeToMinutes_eval "22:00" "22" "00" 22 0 (by decide) (by decide)
    (by decide)
  rw [h]; norm_num

/-- Helper: the minutes-of-day value of the 07:00 night-shift end. -/
theorem timeToMinutes_0700 : timeToMinutes "07:00" = some 420 := by
  have h := timeToMinutes_eval "07:00" "07" "00" 7 0 (by decide) (by decide)
    (by decide)
  rw [h]; norm_num

/-- C3, counterexample: with the two qualifying files a.js and b.js
present at one polling pass, b.js qualifies but receives no
notification (only the first qualifying file is sent), refuting that
each qualifying file triggers exactly one notification and that every
qualifying file found is notified. -/
theorem c3_second_file_never_notified :
    "b.js" ∈ flashQualifying ["a.js", "b.js"] ∧
    "b.js" ∉ (pollFlashDir ["a.js", "b.js"]).notifications ∧
    "b.js" ∈ (pollFlashDir ["a.js", "b.js"]).moved := by
  decide

/-- C3, amended: at a polling pass that finds qualifying files, a
single notification is sent and it carries the first qualifying
file's name; every qualifying file (not only the notified one) is
relocated to the processed subdirectory, so a subsequent pass over
the remaining listing finds no qualifying file and no physical file
is ever notified twice — but qualifying files after the first are
relocated without ever being notified. -/
theorem c3_one_notification_per_pass :
    (∀ (files : List String) (f : String) (fs : List String),
        flashQualifying files = f :: fs →
        (pollFlashDir files).notifications = [f]) ∧
    (∀ files : List String,
        (pollFlashDir files).moved = flashQualifying files) ∧
    (∀ files : List String,
        (pollFlashDir files).notifications.length ≤ 1) ∧
    (∀ files : List String, flashQualifying (afterPoll files) = []) := by
  have moved_eq : ∀ files : List String,
      (pollFlashDir files).moved = flashQualifying files := by
    intro files
    unfold pollFlashDir
    cases h : flashQualifying files <;> simp
  refine ⟨?_, moved_eq, ?_, ?_⟩
  · intro files f fs h
    unfold pollFlashDir
    rw [h]
  · intro files
    unfold pollFlashDir
    cases flashQualifying files <;> simp
  · intro files
    unfold flashQualifying afterPoll
    rw [List.filter_eq_nil_iff]
    intro a ha
    rw [List.mem_filter] at ha
    obtain ⟨hmem, hnc⟩ := ha
    intro hjs
    have hin : a ∈ (pollFlashDir files).moved := by
      rw [moved_eq]
      exact List.mem_filter.mpr ⟨hmem, hjs⟩
    simp [hin] at hnc

/-- C3, witness for the amended theorem: a pass finding the single
qualifying file update1.js sends exactly the notification carrying
update1.js. -/
theorem c3_one_notification_witness :
    (pollFlashDir ["update1.js", "notes.txt"]).notifications =
      ["update1.js"] :=
  c3_one_notification_per_pass.1 ["update1.js", "notes.txt"]
    "update1.js" [] (by decide)

/-- C5: the night-shift window predicate agrees with the claimed
formula — active exactly when (start > end and (now >= start or
now < end)) or (start <= end and start <= now < end) — and on the
quoted examples: the 22:00 to 07:00 window (1320 and 420 minutes) is
active at 23:30 (1410) and 03:00 (180) and inactive at 12:00 (720),
and the 09:00 to 17:00 window is active at 12:00 and inactive at
20:00 (1200). -/
theorem c5_inWindow_characterization :
    (∀ now s e : ℚ, inWindow now s e = true ↔
        ((s > e ∧ (now ≥ s ∨ now < e)) ∨ (s ≤ e ∧ s ≤ now ∧ now < e))) ∧
    timeToMinutes "22:00" = some 1320 ∧
    timeToMinutes "07:00" = some 420 ∧
    timeToMinutes "09:00" = some 540 ∧
    timeToMinutes "17:00" = some 1020 ∧
    inWindowOpt 1410 (timeToMinutes "22:00") (timeToMinutes "07:00") = true ∧
    inWindowOpt 180 (timeToMinutes "22:00") (timeToMinutes "07:00") = true ∧
    inWindowOpt 720 (timeToMinutes "22:00") (timeToMinutes "07:00") = false ∧
    inWindowOpt 720 (timeToMinutes "09:00") (timeToMinutes "17:00") = true ∧
    inWindowOpt 1200 (timeToMinutes "09:00") (timeToMinutes "17:00") = false := by
  have h09 : timeToMinutes "09:00" = some 540 := by
    have h := timeToMinutes_eval "09:00" "09" "00" 9 0 (by decide) (by decide)
      (by decide)
    rw [h]; norm_num
  have h17 : timeToMinutes "17:00" = some 1020 := by
    have h := timeToMinutes_eval "17:00" "17" "00" 17 0 (by decide) (by decide)
      (by decide)
    rw [h]; norm_num
  refine ⟨?_, timeToMinutes_2200, timeToMinutes_0700, h09, h17, ?_, ?_, ?_,
    ?_, ?_⟩
  · intro now s e
    by_cases h : e < s
    · simp [inWindow, inWindowOpt, jsGt, jsGe, jsLt, h]
    · simp [inWindow, inWindowOpt, jsGt, jsGe, jsLt, h]
      intro h1 h2
      linarith
  all_goals
    simp only [timeToMinutes_2200, timeToMinutes_0700, h09, h17]
  all_goals
    norm_num [inWindowOpt, jsGt, jsGe, jsLt]

/-- C7: writing 60 through the dotted path display.dimAfter with
updateSetting persists the whole document, and a fresh load of the
resulting store returns a document whose display.dimAfter is 60 —
for any timezone in the defaults and any prior state of the
persisted store. -/
theorem c7_updateSetting_dimAfter_persists :
    ∀ (tz : String) (s : Store Json),
      getPath ["display", "dimAfter"]
        (loadConfig (defaultConfigJson tz)
          (updateSetting (defaultConfigJson tz) "display.dimAfter"
            (Json.num 60) s).2).1 = some (Json.num 60) := by
  intro tz s
  rfl

/-- Helper: every public timer operation preserves non-negativity of
the remaining seconds. -/
theorem applyTimerOp_nonneg (st : TimerState) (op : TimerOp)
    (h : 0 ≤ st.timerSeconds) : 0 ≤ (applyTimerOp st op).timerSeconds := by
  cases op <;>
    simp only [applyTimerOp, addTimerTime, toggleTimer, startTimer,
      pauseTimer, clearTimer, timerTick] <;>
    first
      | omega
      | (split_ifs <;> simp_all <;> omega)

/-- Helper: non-negativity of the remaining seconds is an inductive
invariant of every run of public timer operations. -/
theorem foldl_applyTimerOp_nonneg (ops : List TimerOp) :
    ∀ st : TimerState, 0 ≤ st.timerSeconds →
      0 ≤ (ops.foldl applyTimerOp st).timerSeconds := by
  induction ops with
  | nil => intro st h; exact h
  | cons op rest ih => intro st h; exact ih _ (applyTimerOp_nonneg st op h)

/-- C9: starting from the shell-start state (zero seconds, not
running), every sequence of the public operations keeps the remaining
seconds non-negative; appending a clear resets the remaining time to
zero and stops the timer; and the automatic completion tick on a
running timer at zero yields the zero, not-running state (emitting the
one completion signal). -/
theorem c9_timer_state_invariant :
    (∀ ops : List TimerOp, 0 ≤ (runTimerOps ops).timerSeconds) ∧
    (∀ ops : List TimerOp,
        (runTimerOps (ops ++ [TimerOp.clear])).timerSeconds = 0 ∧
        (runTimerOps (ops ++ [TimerOp.clear])).isTimerRunning = false) ∧
    (∀ st : TimerState,
        timerTick { st with isTimerRunning := true, timerSeconds := 0 } =
          { timerSeconds := 0, isTimerRunning := false,
            completions := st.completions + 1 }) := by
  refine ⟨?_, ?_, ?_⟩
  · intro ops
    exact foldl_applyTimerOp_nonneg ops initTimerState
      (by simp [initTimerState])
  · intro ops
    unfold runTimerOps
    rw [List.foldl_append]
    simp [applyTimerOp, clearTimer, pauseTimer]
  · intro st
    simp [timerTick, clearTimer, pauseTimer]

/-- C10, counterexample: the strings 0:0 and 24:00 are not well-formed
HH:MM clock strings, yet timeToMinutes maps them to the ordinary
numbers 0 and 1440, not NaN; with night shift enabled between them the
window covers the whole day, so at 12:00 (720 minutes) the warm
overlay is set to the configured warmth 0.5 instead of being left
inactive at opacity 0. -/
theorem c10_malformed_time_counterexample :
    isHHMM "0:0" = false ∧
    isHHMM "24:00" = false ∧
    timeToMinutes "0:0" = some 0 ∧
    timeToMinutes "24:00" = some 1440 ∧
    checkNightShift
        (some { enabled := true, startTime := "0:0", endTime := "24:00",
                warmth := 1/2 }) 720 = 1/2 ∧
    (1/2 : ℚ) ≠ 0 := by
  have h1 : timeToMinutes "0:0" = some 0 := by
    have h := timeToMinutes_eval "0:0" "0" "0" 0 0 (by decide) (by decide)
      (by decide)
    rw [h]; norm_num
  have h2 : timeToMinutes "24:00" = some 1440 := by
    have h := timeToMinutes_eval "24:00" "24" "00" 24 0 (by decide)
      (by decide) (by decide)
    rw [h]; norm_num
  refine ⟨by decide, by decide, h1, h2, ?_, by norm_num⟩
  unfold checkNightShift
  simp only [h1, h2]
  norm_num [inWindowOpt, jsGt, jsGe, jsLt]

/-- C10, amended: the night-shift evaluation is total (no comparison
or conversion raises); every JavaScript comparison against a NaN
operand is false; and whenever timeToMinutes does yield NaN for the
start or the end string, the window test is false and the warm overlay
opacity is 0 — but not every malformed HH:MM string yields NaN, as the
counterexample shows. -/
theorem c10_nan_leaves_overlay_inactive :
    (∀ a : Option ℚ,
        jsLt a none = false ∧ jsLt none a = false ∧
        jsGt a none = false ∧ jsGt none a = false ∧
        jsGe a none = false ∧ jsGe none a = false) ∧
    (∀ (c : NightShiftConfig) (now : ℚ),
        timeToMinutes c.startTime = none ∨ timeToMinutes c.endTime = none →
        checkNightShift (some c) now = 0) := by
  constructor
  · intro a
    cases a <;> simp [jsLt, jsGt, jsGe]
  · intro c now h
    unfold checkNightShift
    cases he : c.enabled with
    | false => simp [he]
    | true =>
        simp only [he, Bool.not_true, if_neg]
        rcases h with h | h <;>
          simp [inWindowOpt, jsGt, jsGe, jsLt, h]

/-- C10, witness: with the non-numeric start string ab:cd (whose
conversion is NaN) and night shift enabled, the overlay opacity at
12:00 is 0. -/
theorem c10_nan_witness :
    checkNightShift
        (some { enabled := true, startTime := "ab:cd", endTime := "07:00",
                warmth := 1/2 }) 720 = 0 :=
  c10_nan_leaves_overlay_inactive.2
    { enabled := true, startTime := "ab:cd", endTime := "07:00",
      warmth := 1/2 } 720 (Or.inl (by decide))
